import Mathlib

/-!
Shallow embedding of the PubChem MCP server (src/index.ts): the argument
validators, the per-method handlers, the tool-dispatch boundary, and the
resource-read URI router.  JavaScript values are modelled by `JValue`
(numbers as rationals; NaN, Infinity and -0 are not modelled, no claim
involves them), `undefined` by `Option.none`, thrown errors by the
`JsError` type, and the axios client by an `Oracle` mapping each upstream
request to either a response value or a thrown error message.  Handlers
return their outcome together with the ordered list of upstream HTTP
requests they issued.
-/

namespace PubChemMCP

/-- A JavaScript/JSON value.  Objects keep their fields as an association
list in insertion order, matching JS object semantics closely enough for
the code under study (which never relies on duplicate keys). -/
inductive JValue where
  | null
  | bool (b : Bool)
  | num (q : Rat)
  | str (s : String)
  | arr (xs : List JValue)
  | obj (fields : List (String × JValue))

/-- Field lookup in an association list, first binding wins. -/
def lookupField : List (String × JValue) → String → Option JValue
  | [], _ => none
  | (k, v) :: rest, key => if k = key then some v else lookupField rest key

/-- JS property access `v.k` (optional-chaining flavour: non-objects give
`undefined`; array/string built-ins such as `.length` are modelled
separately where the source uses them). -/
def getField (v : JValue) (k : String) : Option JValue :=
  match v with
  | JValue.obj fs => lookupField fs k
  | _ => none

/-- JS truthiness of a defined value. -/
def truthyV : JValue → Bool
  | JValue.null => false
  | JValue.bool b => b
  | JValue.num q => !(q = 0)
  | JValue.str s => !(s = "")
  | JValue.arr _ => true
  | JValue.obj _ => true

/-- JS truthiness, with `none` standing for `undefined`. -/
def truthy : Option JValue → Bool
  | none => false
  | some v => truthyV v

/-- Modelling of the JS `v || d` falsy-default idiom used throughout the
handlers, such as `args.threshold || 90` and the search-type defaulting
to the name search. -/
def jsOr (v : Option JValue) (d : JValue) : JValue :=
  if truthy v then v.getD JValue.null else d

/-- A defined value out of an optional slot; only used where the source
has already ensured the slot is defined (validated fields, guarded
branches). -/
def optJ (v : Option JValue) : JValue := v.getD JValue.null

/-- The rational value of a natural number, built directly so that it
evaluates by kernel reduction (the Mathlib cast does not); used where the
source turns an array length into a JS number. -/
def ratOfNat (n : Nat) : Rat :=
  ⟨Int.ofNat n, 1, Nat.one_ne_zero, Nat.coprime_one_right _⟩

/-- Rendering of a JS number for template-literal interpolation and
`String()` coercion.  Integral values render exactly as JS does; for the
non-integral case (never exercised by a claim or theorem) we fall back to
a `num/den` rendering rather than JS decimal notation. -/
def jsNumToString (q : Rat) : String :=
  if q.den = 1 then toString q.num
  else toString q.num ++ "/" ++ toString q.den

mutual

/-- JS string coercion `String(v)` / template-literal interpolation of a
defined value.  Arrays join their elements with commas (null elements
render empty), objects render as in JS. -/
def jsStringOf : JValue → String
  | JValue.null => "null"
  | JValue.bool b => if b then "true" else "false"
  | JValue.num q => jsNumToString q
  | JValue.str s => s
  | JValue.arr xs => joinElems xs
  | JValue.obj _ => "[object Object]"

/-- Comma-joining of array elements, as `Array.prototype.join` with a
comma separator renders them. -/
def joinElems : List JValue → String
  | [] => ""
  | [JValue.null] => ""
  | [x] => jsStringOf x
  | JValue.null :: xs => "," ++ joinElems xs
  | x :: xs => jsStringOf x ++ "," ++ joinElems xs

end

/-- Template-literal interpolation of a possibly-undefined value:
`String(undefined)` is `"undefined"`. -/
def jsStringOpt : Option JValue → String
  | none => "undefined"
  | some v => jsStringOf v

/-- `Array.prototype.join` with a comma separator. -/
def jsJoin (xs : List JValue) : String := joinElems xs

/-- The elements of an array value (the source only calls this on slots
validation has already proved to be arrays). -/
def asArr : Option JValue → List JValue
  | some (JValue.arr xs) => xs
  | _ => []

/-- JS strict equality `v === s` against a string literal. -/
def strictEqStr (v : JValue) (s : String) : Bool :=
  match v with
  | JValue.str t => t = s
  | _ => false

/-! ### URI-component encoding

`encodeURIComponent` percent-encodes every character outside
the unreserved set (letters, digits, and the nine marks the spec of
`encodeURIComponent` lists), byte by byte over the UTF-8 encoding of the
character. -/

/-- Characters `encodeURIComponent` leaves unescaped. -/
def isUnreservedUri (c : Char) : Bool :=
  let n := c.toNat
  (decide (48 ≤ n) && decide (n ≤ 57)) ||
  (decide (65 ≤ n) && decide (n ≤ 90)) ||
  (decide (97 ≤ n) && decide (n ≤ 122)) ||
  decide (n = 45) || decide (n = 46) || decide (n = 33) || decide (n = 126) ||
  decide (n = 42) || decide (n = 39) || decide (n = 40) || decide (n = 41) ||
  decide (n = 95)

/-- Upper-case hexadecimal digit. -/
def hexDig (n : Nat) : Char :=
  if n < 10 then Char.ofNat (48 + n) else Char.ofNat (55 + n)

/-- `%XX` escape of one byte. -/
def encByte (n : Nat) : String :=
  String.mk [Char.ofNat 37, hexDig (n / 16 % 16), hexDig (n % 16)]

/-- UTF-8 bytes of a code point. -/
def utf8Bytes (n : Nat) : List Nat :=
  if n < 128 then [n]
  else if n < 2048 then [192 + n / 64, 128 + n % 64]
  else if n < 65536 then [224 + n / 4096, 128 + n / 64 % 64, 128 + n % 64]
  else [240 + n / 262144, 128 + n / 4096 % 64, 128 + n / 64 % 64, 128 + n % 64]

/-- Percent-encoding of one character. -/
def encodeChar (c : Char) : String :=
  if isUnreservedUri c then String.mk [c]
  else String.join ((utf8Bytes c.toNat).map encByte)

/-- JS `encodeURIComponent`. -/
def encodeURIComponent (s : String) : String :=
  String.join (s.toList.map encodeChar)

/-- Value of a hexadecimal digit character, if it is one. -/
def hexVal (c : Char) : Option Nat :=
  let n := c.toNat
  if decide (48 ≤ n) && decide (n ≤ 57) then some (n - 48)
  else if decide (65 ≤ n) && decide (n ≤ 70) then some (n - 55)
  else if decide (97 ≤ n) && decide (n ≤ 102) then some (n - 87)
  else none

/-- Percent-decoding over a character list.  Approximation of JS
`decodeURIComponent` used only by the similarity resource route (which no
claim exercises): multi-byte UTF-8 sequences are not reassembled into a
single character and malformed escapes pass through instead of raising
`URIError`. -/
def percentDecodeList : List Char → List Char
  | [] => []
  | c :: a :: b :: rest2 =>
    if c.toNat = 37 then
      match hexVal a, hexVal b with
      | some x, some y => Char.ofNat (16 * x + y) :: percentDecodeList rest2
      | _, _ => c :: percentDecodeList (a :: b :: rest2)
    else c :: percentDecodeList (a :: b :: rest2)
  | c :: rest => c :: percentDecodeList rest
termination_by l => l.length
decreasing_by all_goals (simp only [List.length_cons]; omega)

/-- JS `decodeURIComponent` (see `percentDecodeList` for the modelled
approximation). -/
def decodeURIComponent (s : String) : String :=
  String.mk (percentDecodeList s.toList)

/-! ### The argument bag

The tool receives a loosely-typed argument object.  We model it as a
record with one optional slot per field the implementation ever reads;
`none` is JS `undefined`.  The leading object-and-non-null `typeof`
conjuncts of the validators hold by
construction here (the MCP layer always hands the handlers an object). -/

structure RawArgs where
  method : Option JValue
  query : Option JValue
  cid : Option JValue
  aid : Option JValue
  smiles : Option JValue
  search_type : Option JValue
  max_records : Option JValue
  threshold : Option JValue
  properties : Option JValue
  format : Option JValue
  conformer_type : Option JValue
  cids : Option JValue
  operation : Option JValue

/-- The argument object with every field absent. -/
def emptyArgs : RawArgs :=
  ⟨none, none, none, none, none, none, none, none, none, none, none, none, none⟩

/-! ### Validators (src/index.ts lines 52-123) -/

/-- `isValidCompoundSearchArgs`. -/
def isValidCompoundSearchArgs (args : RawArgs) : Bool :=
  (match args.query with
   | some (JValue.str s) => decide (0 < s.length)
   | _ => false) &&
  (match args.search_type with
   | none => true
   | some (JValue.str s) =>
       ["name", "smiles", "inchi", "sdf", "cid", "formula"].contains s
   | some _ => false) &&
  (match args.max_records with
   | none => true
   | some (JValue.num m) => decide (0 < m) && decide (m ≤ 10000)
   | some _ => false)

/-- `isValidCidArgs`. -/
def isValidCidArgs (args : RawArgs) : Bool :=
  (match args.cid with
   | some (JValue.num _) => true
   | some (JValue.str _) => true
   | _ => false) &&
  (match args.format with
   | none => true
   | some (JValue.str s) => ["json", "sdf", "xml", "asnt", "asnb"].contains s
   | some _ => false)

/-- `isValidSmilesArgs`. -/
def isValidSmilesArgs (args : RawArgs) : Bool :=
  (match args.smiles with
   | some (JValue.str s) => decide (0 < s.length)
   | _ => false) &&
  (match args.threshold with
   | none => true
   | some (JValue.num t) => decide (0 ≤ t) && decide (t ≤ 100)
   | some _ => false) &&
  (match args.max_records with
   | none => true
   | some (JValue.num m) => decide (0 < m) && decide (m ≤ 10000)
   | some _ => false)

/-- `isValidBatchArgs`. -/
def isValidBatchArgs (args : RawArgs) : Bool :=
  (match args.cids with
   | some (JValue.arr xs) =>
       decide (0 < xs.length) && decide (xs.length ≤ 200) &&
       xs.all (fun v =>
         match v with
         | JValue.num q => decide (0 < q)
         | _ => false)
   | _ => false) &&
  (match args.operation with
   | none => true
   | some (JValue.str s) =>
       ["property", "synonyms", "classification", "description"].contains s
   | some _ => false)

/-- `isValidConformerArgs`. -/
def isValidConformerArgs (args : RawArgs) : Bool :=
  (match args.cid with
   | some (JValue.num _) => true
   | some (JValue.str _) => true
   | _ => false) &&
  (match args.conformer_type with
   | none => true
   | some (JValue.str s) => ["3d", "2d"].contains s
   | some _ => false)

/-- `isValidPropertiesArgs`. -/
def isValidPropertiesArgs (args : RawArgs) : Bool :=
  (match args.cid with
   | some (JValue.num _) => true
   | some (JValue.str _) => true
   | _ => false) &&
  (match args.properties with
   | none => true
   | some (JValue.arr ps) =>
       ps.all (fun p =>
         match p with
         | JValue.str _ => true
         | _ => false)
   | some _ => false)

/-! ### Requests, results, errors -/

/-- One upstream HTTP call against the PubChem REST root.  `get` carries
the path and the axios `params` object; `post` carries the path and the
JSON body (the only POST in the source is the similarity search). -/
inductive UpReq where
  | get (path : String) (params : List (String × JValue))
  | post (path : String) (body : List (String × JValue))

/-- The axios client: each request either yields `response.data` or
throws an `Error` carrying a message (network failure, timeout,
non-success status). -/
def Oracle := UpReq → Except String JValue

/-- One text content item of the result envelope.  `json v` stands for
`JSON.stringify(v, null, 2)` (the pretty-printing whitespace is not
spelled out); `plain s` is a literal string. -/
inductive ContentText where
  | plain (s : String)
  | json (v : JValue)

/-- The protocol result envelope `{ content, isError? }`; an absent
`isError` is `false`. -/
structure ToolResult where
  content : List ContentText
  isError : Bool

/-- The MCP SDK error codes used by the source. -/
inductive ErrorCode where
  | invalidRequest
  | methodNotFound
  | invalidParams
  | internalError

/-- A thrown JS error: an `McpError (code, message)` or a generic error
with a message. -/
inductive JsError where
  | mcp (code : ErrorCode) (msg : String)
  | plain (msg : String)

/-- JSON-RPC code numbers of the SDK error codes. -/
def errorCodeNum : ErrorCode → String
  | ErrorCode.invalidRequest => "-32600"
  | ErrorCode.methodNotFound => "-32601"
  | ErrorCode.invalidParams => "-32602"
  | ErrorCode.internalError => "-32603"

/-- `error.message` as the dispatch boundary reads it: the `McpError`
constructor of the MCP SDK formats its message as
`MCP error <code>: <message>`. -/
def jsErrorMessage : JsError → String
  | JsError.mcp c m => "MCP error " ++ errorCodeNum c ++ ": " ++ m
  | JsError.plain m => m

/-- What a handler invocation does: return a result or throw. -/
inductive Outcome where
  | ok (r : ToolResult)
  | err (e : JsError)

/-! ### Response-shape helpers -/

/-- `response.data?.IdentifierList?.CID`. -/
def cidField (v : JValue) : Option JValue :=
  (getField v "IdentifierList").bind (fun w => getField w "CID")

/-- The guard `response.data?.IdentifierList?.CID?.length > 0`: arrays
and strings have a `.length`; on anything else the comparison with
`undefined` is false. -/
def cidLenPos (v : JValue) : Bool :=
  match cidField v with
  | some (JValue.arr xs) => decide (0 < xs.length)
  | some (JValue.str s) => decide (0 < s.length)
  | _ => false

/-- The CID list as the handlers slice it (only ever reached when the
guard above saw a non-empty array; the string corner of `.slice` is not
modelled). -/
def cidArr (v : JValue) : List JValue :=
  match cidField v with
  | some (JValue.arr xs) => xs
  | _ => []

/-- `response.data.IdentifierList.CID.length` as reported in
`total_found`. -/
def cidLen (v : JValue) : Nat :=
  match cidField v with
  | some (JValue.arr xs) => xs.length
  | some (JValue.str s) => s.length
  | _ => 0

/-- `cids[0]` after the handler has established a non-empty array (other
shapes are corners the source never reaches behind its guards). -/
def jsIndex0 : Option JValue → JValue
  | some (JValue.arr (x :: _)) => x
  | _ => JValue.null

/-- The `get_patent_ids` emptiness guard
`!cids || cids.length === 0`. -/
def lenIsZero : Option JValue → Bool
  | some (JValue.arr xs) => decide (xs.length = 0)
  | some (JValue.str s) => decide (s.length = 0)
  | _ => false

/-- `!cids || cids.length === 0` (comparing an undefined `.length` with
`0` via `===` is false). -/
def patentNoCids (v : Option JValue) : Bool :=
  !(truthy v) || lenIsZero v

/-- `response.data?.InformationList?.Information?.[0]?.PatentID || []`
(a truthy non-array `PatentID` would later crash `.slice` in JS; that
corner is not modelled and not exercised). -/
def extractPatentIds (v : JValue) : List JValue :=
  match (getField v "InformationList").bind (fun w => getField w "Information") with
  | some (JValue.arr (x :: _)) =>
    (match getField x "PatentID" with
     | some (JValue.arr ys) => ys
     | _ => [])
  | _ => []

/-! ### Upstream request builders -/

/-- `GET /compound/${searchType}/${encodeURIComponent(args.query)}/cids/JSON`
with `params: { MaxRecords: maxRecords }`. -/
def searchCidsReq (searchType : JValue) (query : String) (maxRecords : JValue) : UpReq :=
  UpReq.get ("/compound/" ++ jsStringOf searchType ++ "/" ++ encodeURIComponent query ++ "/cids/JSON")
    [("MaxRecords", maxRecords)]

/-- The comma-joined details fetch
`GET /compound/cid/<cids>/property/MolecularFormula,MolecularWeight,CanonicalSMILES,IUPACName/JSON`. -/
def propDetailsReq (cidsJoined : String) : UpReq :=
  UpReq.get ("/compound/cid/" ++ cidsJoined ++
    "/property/MolecularFormula,MolecularWeight,CanonicalSMILES,IUPACName/JSON") []

/-- `GET /compound/smiles/${encodeURIComponent(smiles)}/cids/JSON`. -/
def smilesCidsReq (smiles : String) : UpReq :=
  UpReq.get ("/compound/smiles/" ++ encodeURIComponent smiles ++ "/cids/JSON") []

/-- The per-element request of `batch_compound_lookup`:
`GET /compound/cid/${cid}/property/MolecularWeight,CanonicalSMILES,IUPACName/JSON`. -/
def batchReq (cid : JValue) : UpReq :=
  UpReq.get ("/compound/cid/" ++ jsStringOf cid ++
    "/property/MolecularWeight,CanonicalSMILES,IUPACName/JSON") []

/-- `GET /compound/cid/${cid}/xrefs/PatentID/JSON`. -/
def patentXrefsReq (cid : JValue) : UpReq :=
  UpReq.get ("/compound/cid/" ++ jsStringOf cid ++ "/xrefs/PatentID/JSON") []

/-- `GET /assay/aid/${args.aid}/JSON`. -/
def assayReq (aid : String) : UpReq :=
  UpReq.get ("/assay/aid/" ++ aid ++ "/JSON") []

/-! ### Tool handlers (src/index.ts lines 601-1044)

Each handler takes the axios oracle and the argument bag and returns its
outcome paired with the ordered list of upstream requests it issued. -/

/-- `handleSearchCompounds`. -/
def handleSearchCompounds (oracle : Oracle) (args : RawArgs) : Outcome × List UpReq :=
  if isValidCompoundSearchArgs args then
    let searchType := jsOr args.search_type (JValue.str "name")
    let maxRecords := jsOr args.max_records (JValue.num 100)
    let req1 := searchCidsReq searchType (jsStringOpt args.query) maxRecords
    match oracle req1 with
    | Except.error e =>
        (Outcome.err (JsError.mcp ErrorCode.internalError ("Failed to search compounds: " ++ e)), [req1])
    | Except.ok data =>
      if cidLenPos data then
        let cids := (cidArr data).take 10
        let req2 := propDetailsReq (jsJoin cids)
        match oracle req2 with
        | Except.error e =>
            (Outcome.err (JsError.mcp ErrorCode.internalError ("Failed to search compounds: " ++ e)),
             [req1, req2])
        | Except.ok details =>
            (Outcome.ok ⟨[ContentText.json (JValue.obj
              [("query", optJ args.query),
               ("search_type", searchType),
               ("total_found", JValue.num (ratOfNat (cidLen data))),
               ("details", details)])], false⟩,
             [req1, req2])
      else
        (Outcome.ok ⟨[ContentText.json (JValue.obj
          [("message", JValue.str "No compounds found"),
           ("query", optJ args.query)])], false⟩,
         [req1])
  else
    (Outcome.err (JsError.mcp ErrorCode.invalidParams "Invalid compound search arguments"), [])

/-- `handleGetCompoundInfo`. -/
def handleGetCompoundInfo (oracle : Oracle) (args : RawArgs) : Outcome × List UpReq :=
  if isValidCidArgs args then
    let format := jsOr args.format (JValue.str "json")
    let req := UpReq.get ("/compound/cid/" ++ jsStringOpt args.cid ++ "/" ++
      (if strictEqStr format "json" then "JSON" else jsStringOf format)) []
    match oracle req with
    | Except.error e =>
        (Outcome.err (JsError.mcp ErrorCode.internalError ("Failed to get compound info: " ++ e)), [req])
    | Except.ok data =>
        (Outcome.ok ⟨[if strictEqStr format "json" then ContentText.json data
                      else ContentText.plain (jsStringOf data)], false⟩,
         [req])
  else
    (Outcome.err (JsError.mcp ErrorCode.invalidParams "Invalid CID arguments"), [])

/-- `handleSearchBySmiles`. -/
def handleSearchBySmiles (oracle : Oracle) (args : RawArgs) : Outcome × List UpReq :=
  if isValidSmilesArgs args then
    let req1 := smilesCidsReq (jsStringOpt args.smiles)
    match oracle req1 with
    | Except.error e =>
        (Outcome.err (JsError.mcp ErrorCode.internalError ("Failed to search by SMILES: " ++ e)), [req1])
    | Except.ok data =>
      if cidLenPos data then
        let cid := jsIndex0 (cidField data)
        let req2 := UpReq.get ("/compound/cid/" ++ jsStringOf cid ++
          "/property/MolecularFormula,MolecularWeight,CanonicalSMILES,IUPACName/JSON") []
        match oracle req2 with
        | Except.error e =>
            (Outcome.err (JsError.mcp ErrorCode.internalError ("Failed to search by SMILES: " ++ e)),
             [req1, req2])
        | Except.ok details =>
            (Outcome.ok ⟨[ContentText.json (JValue.obj
              [("query_smiles", optJ args.smiles),
               ("found_cid", cid),
               ("details", details)])], false⟩,
             [req1, req2])
      else
        (Outcome.ok ⟨[ContentText.json (JValue.obj
          [("message", JValue.str "No exact match found"),
           ("query_smiles", optJ args.smiles)])], false⟩,
         [req1])
  else
    (Outcome.err (JsError.mcp ErrorCode.invalidParams "Invalid SMILES arguments"), [])

/-- `handleGetCompoundSynonyms`. -/
def handleGetCompoundSynonyms (oracle : Oracle) (args : RawArgs) : Outcome × List UpReq :=
  if isValidCidArgs args then
    let req := UpReq.get ("/compound/cid/" ++ jsStringOpt args.cid ++ "/synonyms/JSON") []
    match oracle req with
    | Except.error e =>
        (Outcome.err (JsError.mcp ErrorCode.internalError ("Failed to get compound synonyms: " ++ e)), [req])
    | Except.ok data => (Outcome.ok ⟨[ContentText.json data], false⟩, [req])
  else
    (Outcome.err (JsError.mcp ErrorCode.invalidParams "Invalid CID arguments"), [])

/-- `handleSearchSimilarCompounds`. -/
def handleSearchSimilarCompounds (oracle : Oracle) (args : RawArgs) : Outcome × List UpReq :=
  if isValidSmilesArgs args then
    let threshold := jsOr args.threshold (JValue.num 90)
    let maxRecords := jsOr args.max_records (JValue.num 100)
    let req := UpReq.post "/compound/similarity/smiles/JSON"
      [("smiles", optJ args.smiles), ("Threshold", threshold), ("MaxRecords", maxRecords)]
    match oracle req with
    | Except.error e =>
        (Outcome.err (JsError.mcp ErrorCode.internalError ("Failed to search similar compounds: " ++ e)), [req])
    | Except.ok data => (Outcome.ok ⟨[ContentText.json data], false⟩, [req])
  else
    (Outcome.err (JsError.mcp ErrorCode.invalidParams "Invalid similarity search arguments"), [])

/-- `handleGet3dConformers`. -/
def handleGet3dConformers (oracle : Oracle) (args : RawArgs) : Outcome × List UpReq :=
  if isValidConformerArgs args then
    let req := UpReq.get ("/compound/cid/" ++ jsStringOpt args.cid ++
      "/property/Volume3D,ConformerCount3D/JSON") []
    match oracle req with
    | Except.error e =>
        (Outcome.err (JsError.mcp ErrorCode.internalError ("Failed to get 3D conformers: " ++ e)), [req])
    | Except.ok data =>
        (Outcome.ok ⟨[ContentText.json (JValue.obj
          [("cid", optJ args.cid),
           ("conformer_type", jsOr args.conformer_type (JValue.str "3d")),
           ("properties", data)])], false⟩,
         [req])
  else
    (Outcome.err (JsError.mcp ErrorCode.invalidParams "Invalid 3D conformer arguments"), [])

/-- `handleAnalyzeStereochemistry`. -/
def handleAnalyzeStereochemistry (oracle : Oracle) (args : RawArgs) : Outcome × List UpReq :=
  if isValidCidArgs args then
    let req := UpReq.get ("/compound/cid/" ++ jsStringOpt args.cid ++
      "/property/AtomStereoCount,DefinedAtomStereoCount,BondStereoCount,DefinedBondStereoCount,IsomericSMILES/JSON") []
    match oracle req with
    | Except.error e =>
        (Outcome.err (JsError.mcp ErrorCode.internalError ("Failed to analyze stereochemistry: " ++ e)), [req])
    | Except.ok data =>
        (Outcome.ok ⟨[ContentText.json (JValue.obj
          [("cid", optJ args.cid), ("stereochemistry", data)])], false⟩,
         [req])
  else
    (Outcome.err (JsError.mcp ErrorCode.invalidParams "Invalid stereochemistry arguments"), [])

/-- The property list `handleGetCompoundProperties` defaults to. -/
def defaultProps : List String :=
  ["MolecularWeight", "XLogP", "TPSA", "HBondDonorCount", "HBondAcceptorCount",
   "RotatableBondCount", "Complexity", "HeavyAtomCount", "Charge"]

/-- `handleGetCompoundProperties`. -/
def handleGetCompoundProperties (oracle : Oracle) (args : RawArgs) : Outcome × List UpReq :=
  if isValidPropertiesArgs args then
    let properties := jsOr args.properties (JValue.arr (defaultProps.map JValue.str))
    let req := UpReq.get ("/compound/cid/" ++ jsStringOpt args.cid ++
      "/property/" ++ jsJoin (asArr (some properties)) ++ "/JSON") []
    match oracle req with
    | Except.error e =>
        (Outcome.err (JsError.mcp ErrorCode.internalError ("Failed to get compound properties: " ++ e)), [req])
    | Except.ok data => (Outcome.ok ⟨[ContentText.json data], false⟩, [req])
  else
    (Outcome.err (JsError.mcp ErrorCode.invalidParams "Invalid compound properties arguments"), [])

/-- `handleGetAssayInfo`.  Note: unlike every other implemented handler,
this one performs no argument validation at all before issuing its
upstream request. -/
def handleGetAssayInfo (oracle : Oracle) (args : RawArgs) : Outcome × List UpReq :=
  let req := assayReq (jsStringOpt args.aid)
  match oracle req with
  | Except.error e =>
      (Outcome.err (JsError.mcp ErrorCode.internalError ("Failed to get assay info: " ++ e)), [req])
  | Except.ok data => (Outcome.ok ⟨[ContentText.json data], false⟩, [req])

/-- `handleGetSafetyData`. -/
def handleGetSafetyData (oracle : Oracle) (args : RawArgs) : Outcome × List UpReq :=
  if isValidCidArgs args then
    let req := UpReq.get ("/compound/cid/" ++ jsStringOpt args.cid ++ "/classification/JSON") []
    match oracle req with
    | Except.error e =>
        (Outcome.err (JsError.mcp ErrorCode.internalError ("Failed to get safety data: " ++ e)), [req])
    | Except.ok data => (Outcome.ok ⟨[ContentText.json data], false⟩, [req])
  else
    (Outcome.err (JsError.mcp ErrorCode.invalidParams "Invalid CID arguments"), [])

/-- One element of the `batch_results` list: the per-CID upstream call
with its own try/catch recording success or failure individually. -/
def batchEntry (oracle : Oracle) (cid : JValue) : JValue :=
  match oracle (batchReq cid) with
  | Except.ok data =>
      JValue.obj [("cid", cid), ("data", data), ("success", JValue.bool true)]
  | Except.error e =>
      JValue.obj [("cid", cid), ("error", JValue.str e), ("success", JValue.bool false)]

/-- `handleBatchCompoundLookup`: validation accepts up to 200 CIDs, the
loop runs over `args.cids.slice(0, 10)` in input order, and the outer
try/catch is unreachable because every per-element failure is already
caught inside the loop. -/
def handleBatchCompoundLookup (oracle : Oracle) (args : RawArgs) : Outcome × List UpReq :=
  if isValidBatchArgs args then
    let processed := (asArr args.cids).take 10
    (Outcome.ok ⟨[ContentText.json (JValue.obj
      [("batch_results", JValue.arr (processed.map (batchEntry oracle)))])], false⟩,
     processed.map batchReq)
  else
    (Outcome.err (JsError.mcp ErrorCode.invalidParams "Invalid batch arguments"), [])

/-- The xrefs-fetch tail of `handleGetPatentIds`, shared by the direct-cid
and the resolved-smiles paths. -/
def patentFetch (oracle : Oracle) (cid : JValue) (smiles : Option JValue)
    (tr : List UpReq) : Outcome × List UpReq :=
  let req := patentXrefsReq cid
  match oracle req with
  | Except.error e =>
      (Outcome.err (JsError.mcp ErrorCode.internalError ("Failed to get patent IDs: " ++ e)),
       tr ++ [req])
  | Except.ok data =>
    let patentIds := extractPatentIds data
    (Outcome.ok ⟨[ContentText.json (JValue.obj
      [("cid", cid),
       ("smiles", jsOr smiles JValue.null),
       ("patent_count", JValue.num (ratOfNat patentIds.length)),
       ("patent_ids", JValue.arr patentIds),
       ("patent_urls", JValue.arr ((patentIds.take 20).map (fun i =>
          JValue.str ("https://patents.google.com/patent/" ++ jsStringOf i))))])], false⟩,
     tr ++ [req])

/-- `handleGetPatentIds`: takes a truthy `cid` directly, otherwise
resolves a truthy `smiles` to a CID first, otherwise throws
`InvalidParams`; the catch of this handler rethrows `McpError`s unchanged and
wraps every other failure as an `InternalError`. -/
def handleGetPatentIds (oracle : Oracle) (args : RawArgs) : Outcome × List UpReq :=
  if truthy args.cid then
    patentFetch oracle (optJ args.cid) args.smiles []
  else if truthy args.smiles then
    let req1 := smilesCidsReq (jsStringOpt args.smiles)
    match oracle req1 with
    | Except.error e =>
        (Outcome.err (JsError.mcp ErrorCode.internalError ("Failed to get patent IDs: " ++ e)), [req1])
    | Except.ok data =>
      let cids := cidField data
      if patentNoCids cids then
        (Outcome.ok ⟨[ContentText.json (JValue.obj
          [("message", JValue.str "No compound found for the given SMILES"),
           ("smiles", optJ args.smiles)])], false⟩,
         [req1])
      else
        patentFetch oracle (jsIndex0 cids) args.smiles [req1]
  else
    (Outcome.err (JsError.mcp ErrorCode.invalidParams
      "Either \"cid\" or \"smiles\" is required for get_patent_ids"), [])

/-! ### The dispatch boundary (src/index.ts lines 508-597) -/

/-- The falsy-or-non-string check on `args.method`: the
selected method name, if the check passes. -/
def methodString (args : RawArgs) : Option String :=
  match args.method with
  | some (JValue.str s) => if s = "" then none else some s
  | _ => none

/-- The `switch (args.method)` body, including its `default:` throw
(which sits inside the dispatch `try`). -/
def runMethod (oracle : Oracle) (m : String) (args : RawArgs) : Outcome × List UpReq :=
  if m = "search_compounds" then handleSearchCompounds oracle args
  else if m = "get_compound_info" then handleGetCompoundInfo oracle args
  else if m = "search_by_smiles" then handleSearchBySmiles oracle args
  else if m = "get_compound_synonyms" then handleGetCompoundSynonyms oracle args
  else if m = "search_similar_compounds" then handleSearchSimilarCompounds oracle args
  else if m = "get_3d_conformers" then handleGet3dConformers oracle args
  else if m = "analyze_stereochemistry" then handleAnalyzeStereochemistry oracle args
  else if m = "get_compound_properties" then handleGetCompoundProperties oracle args
  else if m = "get_assay_info" then handleGetAssayInfo oracle args
  else if m = "get_safety_data" then handleGetSafetyData oracle args
  else if m = "batch_compound_lookup" then handleBatchCompoundLookup oracle args
  else if m = "get_patent_ids" then handleGetPatentIds oracle args
  else (Outcome.err (JsError.mcp ErrorCode.methodNotFound ("Unknown method: " ++ m)), [])

/-- What the tool-call request handler does: return a result envelope, or
raise a protocol-level error past the boundary. -/
inductive DispatchOutcome where
  | ok (r : ToolResult)
  | protocolError (code : ErrorCode) (msg : String)

/-- The `CallToolRequestSchema` handler: the tool-name and method-selector
checks throw before the `try`; everything thrown inside the `try` —
`McpError`s from validation, the `default:` case, and handler-wrapped
upstream failures alike — is caught and rendered as an `isError: true`
text result naming the method and the failure message. -/
def callTool (oracle : Oracle) (name : String) (args : RawArgs) : DispatchOutcome × List UpReq :=
  if name = "pubchem" then
    match methodString args with
    | none =>
        (DispatchOutcome.protocolError ErrorCode.invalidParams
          "The \"method\" parameter is required and must be a string", [])
    | some m =>
      match runMethod oracle m args with
      | (Outcome.ok r, tr) => (DispatchOutcome.ok r, tr)
      | (Outcome.err e, tr) =>
          (DispatchOutcome.ok ⟨[ContentText.plain
            ("Error executing method " ++ m ++ ": " ++ jsErrorMessage e)], true⟩, tr)
  else
    (DispatchOutcome.protocolError ErrorCode.methodNotFound ("Unknown tool: " ++ name), [])

/-! ### The resource-read router (src/index.ts lines 211-363) -/

/-- Anchored prefix-stripping over character lists (the `^...` part of
the route regexes). -/
def listStripPre : List Char → List Char → Option (List Char)
  | [], s => some s
  | _ :: _, [] => none
  | a :: as, b :: bs => if a = b then listStripPre as bs else none

/-- ASCII digit test for the `([0-9]+)$` capture. -/
def isDigitCh (c : Char) : Bool :=
  decide (48 ≤ c.toNat) && decide (c.toNat ≤ 57)

/-- Matching `^<pre>([0-9]+)$` and extracting the capture. -/
def matchIdTemplate (pre : String) (uri : String) : Option String :=
  match listStripPre pre.toList uri.toList with
  | some rest =>
      if decide (0 < rest.length) && rest.all isDigitCh then some (String.mk rest) else none
  | none => none

/-- A character the regex `.` matches (it excludes the four JS line
terminators). -/
def dotCh (c : Char) : Bool :=
  decide (c.toNat ≠ 10) && decide (c.toNat ≠ 13) &&
  decide (c.toNat ≠ 8232) && decide (c.toNat ≠ 8233)

/-- Matching `^pubchem:\/\/similarity\/(.+)$` and extracting the
capture. -/
def matchSimilarity (uri : String) : Option String :=
  match listStripPre "pubchem://similarity/".toList uri.toList with
  | some rest =>
      if decide (0 < rest.length) && rest.all dotCh then some (String.mk rest) else none
  | none => none

/-- What a resource read does: JSON contents for the requested URI, or a
thrown `McpError`. -/
inductive ResourceOutcome where
  | ok (uri : String) (data : JValue)
  | err (code : ErrorCode) (msg : String)

/-- The `ReadResourceRequestSchema` handler: the six templates are tried
in a fixed order, first match wins, and a URI matching none of them
raises `InvalidRequest` without any upstream call. -/
def readResource (oracle : Oracle) (uri : String) : ResourceOutcome × List UpReq :=
  match matchIdTemplate "pubchem://compound/" uri with
  | some cid =>
    let req := UpReq.get ("/compound/cid/" ++ cid ++ "/JSON") []
    (match oracle req with
     | Except.ok data => (ResourceOutcome.ok uri data, [req])
     | Except.error e =>
         (ResourceOutcome.err ErrorCode.internalError
           ("Failed to fetch compound " ++ cid ++ ": " ++ e), [req]))
  | none =>
  match matchIdTemplate "pubchem://structure/" uri with
  | some cid =>
    let req := UpReq.get ("/compound/cid/" ++ cid ++
      "/property/CanonicalSMILES,IsomericSMILES,InChI,InChIKey/JSON") []
    (match oracle req with
     | Except.ok data => (ResourceOutcome.ok uri data, [req])
     | Except.error e =>
         (ResourceOutcome.err ErrorCode.internalError
           ("Failed to fetch structure for " ++ cid ++ ": " ++ e), [req]))
  | none =>
  match matchIdTemplate "pubchem://properties/" uri with
  | some cid =>
    let req := UpReq.get ("/compound/cid/" ++ cid ++
      "/property/MolecularWeight,XLogP,TPSA,HBondDonorCount,HBondAcceptorCount,RotatableBondCount,Complexity/JSON") []
    (match oracle req with
     | Except.ok data => (ResourceOutcome.ok uri data, [req])
     | Except.error e =>
         (ResourceOutcome.err ErrorCode.internalError
           ("Failed to fetch properties for " ++ cid ++ ": " ++ e), [req]))
  | none =>
  match matchIdTemplate "pubchem://bioassay/" uri with
  | some aid =>
    let req := UpReq.get ("/assay/aid/" ++ aid ++ "/JSON") []
    (match oracle req with
     | Except.ok data => (ResourceOutcome.ok uri data, [req])
     | Except.error e =>
         (ResourceOutcome.err ErrorCode.internalError
           ("Failed to fetch bioassay " ++ aid ++ ": " ++ e), [req]))
  | none =>
  match matchSimilarity uri with
  | some raw =>
    let smiles := decodeURIComponent raw
    let req := UpReq.post "/compound/similarity/smiles/JSON"
      [("smiles", JValue.str smiles), ("Threshold", JValue.num 90), ("MaxRecords", JValue.num 100)]
    (match oracle req with
     | Except.ok data => (ResourceOutcome.ok uri data, [req])
     | Except.error e =>
         (ResourceOutcome.err ErrorCode.internalError
           ("Failed to perform similarity search: " ++ e), [req]))
  | none =>
  match matchIdTemplate "pubchem://safety/" uri with
  | some cid =>
    let req := UpReq.get ("/compound/cid/" ++ cid ++ "/classification/JSON") []
    (match oracle req with
     | Except.ok data => (ResourceOutcome.ok uri data, [req])
     | Except.error e =>
         (ResourceOutcome.err ErrorCode.internalError
           ("Failed to fetch safety data for " ++ cid ++ ": " ++ e), [req]))
  | none =>
    (ResourceOutcome.err ErrorCode.invalidRequest ("Invalid URI format: " ++ uri), [])

/-! ### Concrete fixtures for the closed theorems and witnesses -/

/-- An axios client whose every call fails with a connection error. -/
def oracleDown : Oracle := fun _ => Except.error "ECONNREFUSED"

/-- An axios client whose every call succeeds with an empty JSON object;
in particular every identifier lookup resolves to zero CIDs. -/
def oracleEmpty : Oracle := fun _ => Except.ok (JValue.obj [])

/-- The CID list 1, 2, ..., n. -/
def mkCids (n : Nat) : List JValue := (List.range n).map (fun i => JValue.num (ratOfNat (i + 1)))

/-- A resolution response carrying the single CID 887. -/
def cidResp887 : JValue :=
  JValue.obj [("IdentifierList", JValue.obj [("CID", JValue.arr [JValue.num (ratOfNat 887)])])]

/-- An xrefs response carrying three patent identifiers. -/
def patResp3 : JValue :=
  JValue.obj [("InformationList", JValue.obj [("Information", JValue.arr
    [JValue.obj [("PatentID", JValue.arr
      [JValue.str "US-1", JValue.str "US-2", JValue.str "US-3"])]])])]

/-- A client resolving the SMILES lookup path to `cidResp887` and every
other GET to `patResp3`. -/
def oraclePatent : Oracle := fun r =>
  match r with
  | UpReq.get p _ =>
      if p = "/compound/smiles/CO/cids/JSON" then Except.ok cidResp887 else Except.ok patResp3
  | UpReq.post _ _ => Except.error "unused"

/-! ## Theorems settling the claims -/

set_option maxRecDepth 16000

/-- Claim C1 (refuting evaluation): invoking the pubchem tool with method
get_assay_info and the required aid field absent does not fail with an
invalid-parameters error before the upstream call; instead the handler
interpolates the undefined aid into the path and issues
GET /assay/aid/undefined/JSON (one upstream request), whose failure is
then reported as an upstream execution error.  `handleGetAssayInfo`
performs no argument validation, contradicting the validate-then-call
invariant the claim states for every implemented method. -/
theorem get_assay_info_skips_validation :
    callTool oracleDown "pubchem" { emptyArgs with method := some (JValue.str "get_assay_info") }
      = (DispatchOutcome.ok ⟨[ContentText.plain
          "Error executing method get_assay_info: MCP error -32603: Failed to get assay info: ECONNREFUSED"],
          true⟩,
         [assayReq "undefined"]) := rfl

/-- Claim C2 (counterexample): an error already classified as a
protocol-level `McpError` — here the InvalidParams validation failure of
search_compounds — is NOT rethrown through the dispatch boundary as the
claim states; the dispatch catch re-wraps it into an isError text result. -/
theorem mcp_error_wrapped_not_rethrown :
    runMethod oracleDown "search_compounds"
        { emptyArgs with method := some (JValue.str "search_compounds") }
      = (Outcome.err (JsError.mcp ErrorCode.invalidParams "Invalid compound search arguments"), [])
  ∧ callTool oracleDown "pubchem" { emptyArgs with method := some (JValue.str "search_compounds") }
      = (DispatchOutcome.ok ⟨[ContentText.plain
          "Error executing method search_compounds: MCP error -32602: Invalid compound search arguments"],
          true⟩, []) :=
  ⟨rfl, rfl⟩

/-- Claim C2 (amended): every error raised during a handler body —
protocol-level `McpError`s included — is caught at the dispatch boundary
and returned as a text result flagged isError true carrying the method
name and the failure message; no error raised inside the dispatch try is
rethrown, so for a well-formed tool call the dispatch never yields a
protocol-level error. -/
theorem dispatch_wraps_all_handler_errors (oracle : Oracle) (args : RawArgs) (m : String)
    (hm : methodString args = some m) :
    (∀ e tr, runMethod oracle m args = (Outcome.err e, tr) →
        callTool oracle "pubchem" args
          = (DispatchOutcome.ok ⟨[ContentText.plain
              ("Error executing method " ++ m ++ ": " ++ jsErrorMessage e)], true⟩, tr))
  ∧ (∀ c msg, (callTool oracle "pubchem" args).1 ≠ DispatchOutcome.protocolError c msg) := by
  constructor
  · intro e tr h
    simp [callTool, hm, h]
  · intro c msg
    rcases hr : runMethod oracle m args with ⟨o, tr⟩
    cases o <;> simp [callTool, hm, hr]

/-- Witness for C2: a network failure inside get_patent_ids is wrapped by
its handler into an internal McpError, rethrown by the handler catch, and
then rendered by the dispatch boundary as an isError result naming the
method and the message. -/
theorem dispatch_wraps_all_handler_errors_witness :
    callTool oracleDown "pubchem"
        { emptyArgs with method := some (JValue.str "get_patent_ids"), cid := some (JValue.num 5) }
      = (DispatchOutcome.ok ⟨[ContentText.plain
          "Error executing method get_patent_ids: MCP error -32603: Failed to get patent IDs: ECONNREFUSED"],
          true⟩,
         [patentXrefsReq (JValue.num 5)]) :=
  (dispatch_wraps_all_handler_errors oracleDown
      { emptyArgs with method := some (JValue.str "get_patent_ids"), cid := some (JValue.num 5) }
      "get_patent_ids" rfl).1
    (JsError.mcp ErrorCode.internalError "Failed to get patent IDs: ECONNREFUSED")
    [patentXrefsReq (JValue.num 5)] rfl

/-- Per-element form of the batch validation check. -/
theorem batchElem_iff (v : JValue) :
    (match v with | JValue.num q => decide (0 < q) | _ => false) = true
      ↔ ∃ q : Rat, v = JValue.num q ∧ 0 < q := by
  cases v <;> simp

/-- Claim C3: a cids list is accepted exactly when it is non-empty, has
at most 200 elements, and every element is a positive number; of an
accepted list only the first 10 identifiers are dispatched as individual
upstream calls, in input order, and the aggregated entries follow that
same order. -/
theorem batch_accept_iff_and_first_ten (oracle : Oracle) (xs : List JValue) :
    (isValidBatchArgs { emptyArgs with cids := some (JValue.arr xs) } = true
       ↔ xs ≠ [] ∧ xs.length ≤ 200 ∧ ∀ v ∈ xs, ∃ q : Rat, v = JValue.num q ∧ 0 < q)
  ∧ (isValidBatchArgs { emptyArgs with cids := some (JValue.arr xs) } = true →
      handleBatchCompoundLookup oracle { emptyArgs with cids := some (JValue.arr xs) }
        = (Outcome.ok ⟨[ContentText.json (JValue.obj
            [("batch_results", JValue.arr ((xs.take 10).map (batchEntry oracle)))])], false⟩,
           (xs.take 10).map batchReq)) := by
  constructor
  · simp only [isValidBatchArgs, emptyArgs, Bool.and_eq_true, decide_eq_true_eq,
      List.all_eq_true, batchElem_iff]
    constructor
    · rintro ⟨⟨⟨h1, h2⟩, h3⟩, -⟩
      exact ⟨List.ne_nil_of_length_pos h1, h2, h3⟩
    · rintro ⟨h1, h2, h3⟩
      exact ⟨⟨⟨List.length_pos.mpr h1, h2⟩, h3⟩, trivial⟩
  · intro h
    simp only [handleBatchCompoundLookup, h, if_true, asArr]

/-- Witness for C3: a list of 200 positive integers is accepted (and the
iff yields its elementwise positivity); with 15 input identifiers the
handler issues exactly the upstream requests of the first 10, in input
order. -/
theorem batch_accept_iff_and_first_ten_witness :
    ((mkCids 200) ≠ [] ∧ (mkCids 200).length ≤ 200 ∧
       ∀ v ∈ mkCids 200, ∃ q : Rat, v = JValue.num q ∧ 0 < q)
  ∧ isValidBatchArgs { emptyArgs with cids := some (JValue.arr (mkCids 201)) } = false
  ∧ isValidBatchArgs { emptyArgs with cids := some (JValue.arr []) } = false
  ∧ handleBatchCompoundLookup oracleDown { emptyArgs with cids := some (JValue.arr (mkCids 15)) }
      = (Outcome.ok ⟨[ContentText.json (JValue.obj
          [("batch_results", JValue.arr (((mkCids 15).take 10).map (batchEntry oracleDown)))])], false⟩,
         ((mkCids 15).take 10).map batchReq) :=
  ⟨(batch_accept_iff_and_first_ten oracleDown (mkCids 200)).1.mp (by decide),
   by decide, by decide,
   (batch_accept_iff_and_first_ten oracleDown (mkCids 15)).2 (by decide)⟩

/-- Claim C4: in the bounded fan-out of batch_compound_lookup each
element with a failing upstream call is recorded individually as an entry
with its cid, the error message and success false, successful elements
are recorded with their data and success true, and the overall call
returns a content result with isError false for every oracle — even one
failing on all elements. -/
theorem batch_partial_failure_isolation (oracle : Oracle) (args : RawArgs)
    (h : isValidBatchArgs args = true) :
    handleBatchCompoundLookup oracle args
      = (Outcome.ok ⟨[ContentText.json (JValue.obj
          [("batch_results", JValue.arr (((asArr args.cids).take 10).map (fun c =>
              match oracle (batchReq c) with
              | Except.ok d =>
                  JValue.obj [("cid", c), ("data", d), ("success", JValue.bool true)]
              | Except.error e =>
                  JValue.obj [("cid", c), ("error", JValue.str e), ("success", JValue.bool false)])))])],
          false⟩,
         ((asArr args.cids).take 10).map batchReq) := by
  simp only [handleBatchCompoundLookup, h, if_true]
  rfl

/-- Witness for C4: with a client that fails every call, a three-element
batch still returns a non-error content result whose three entries each
record the failure individually. -/
theorem batch_partial_failure_isolation_witness :
    handleBatchCompoundLookup oracleDown { emptyArgs with cids := some (JValue.arr (mkCids 3)) }
      = (Outcome.ok ⟨[ContentText.json (JValue.obj
          [("batch_results", JValue.arr (((asArr (some (JValue.arr (mkCids 3)))).take 10).map (fun c =>
              match oracleDown (batchReq c) with
              | Except.ok d =>
                  JValue.obj [("cid", c), ("data", d), ("success", JValue.bool true)]
              | Except.error e =>
                  JValue.obj [("cid", c), ("error", JValue.str e), ("success", JValue.bool false)])))])],
          false⟩,
         ((asArr (some (JValue.arr (mkCids 3)))).take 10).map batchReq)
  ∧ (handleBatchCompoundLookup oracleDown { emptyArgs with cids := some (JValue.arr (mkCids 3)) }).1
      = Outcome.ok ⟨[ContentText.json (JValue.obj
          [("batch_results", JValue.arr
            [JValue.obj [("cid", JValue.num 1), ("error", JValue.str "ECONNREFUSED"), ("success", JValue.bool false)],
             JValue.obj [("cid", JValue.num 2), ("error", JValue.str "ECONNREFUSED"), ("success", JValue.bool false)],
             JValue.obj [("cid", JValue.num 3), ("error", JValue.str "ECONNREFUSED"), ("success", JValue.bool false)]])])],
          false⟩ :=
  ⟨batch_partial_failure_isolation oracleDown
      { emptyArgs with cids := some (JValue.arr (mkCids 3)) } (by decide),
   rfl⟩

/-- Claim C9: the batch_compound_lookup handler never reads the validated
operation field — any two valid argument objects with the same cids list
produce the identical upstream request sequence and the identical result;
in particular all four accepted operation values and an absent operation
coincide, and every per-element request fetches the fixed property set
MolecularWeight, CanonicalSMILES, IUPACName. -/
theorem batch_operation_irrelevant (oracle : Oracle) (a b : RawArgs)
    (hc : a.cids = b.cids)
    (ha : isValidBatchArgs a = true) (hb : isValidBatchArgs b = true) :
    handleBatchCompoundLookup oracle a = handleBatchCompoundLookup oracle b
  ∧ ∀ c, batchReq c = UpReq.get ("/compound/cid/" ++ jsStringOf c ++
      "/property/MolecularWeight,CanonicalSMILES,IUPACName/JSON") [] := by
  constructor
  · simp only [handleBatchCompoundLookup, ha, hb, if_true, hc]
  · intro c
    rfl

/-- Witness for C9: operation synonyms and an absent operation give the
same behaviour on the same cids. -/
theorem batch_operation_irrelevant_witness :
    handleBatchCompoundLookup oracleDown
        { emptyArgs with cids := some (JValue.arr (mkCids 4)),
                         operation := some (JValue.str "synonyms") }
      = handleBatchCompoundLookup oracleDown { emptyArgs with cids := some (JValue.arr (mkCids 4)) } :=
  (batch_operation_irrelevant oracleDown
      { emptyArgs with cids := some (JValue.arr (mkCids 4)),
                       operation := some (JValue.str "synonyms") }
      { emptyArgs with cids := some (JValue.arr (mkCids 4)) }
      rfl (by decide) (by decide)).1

/-- Claim C5: for the SMILES-based methods a supplied threshold passes
validation exactly when it is a number in the closed range 0 to 100, a
supplied max_records exactly when it is a positive number not exceeding
10000 — stated both for numeric values (the range biconditionals) and
over an arbitrary supplied JS value, so a non-numeric threshold or
max_records is rejected — and both search_by_smiles and
search_similar_compounds reject any argument object failing this shared
predicate with an invalid-parameters error and no upstream request. -/
theorem smiles_threshold_and_max_records_bounds (s : String) (hs : 0 < s.length) (t m : Rat) :
    (isValidSmilesArgs
        { emptyArgs with smiles := some (JValue.str s), threshold := some (JValue.num t) } = true
       ↔ 0 ≤ t ∧ t ≤ 100)
  ∧ (isValidSmilesArgs
        { emptyArgs with smiles := some (JValue.str s), max_records := some (JValue.num m) } = true
       ↔ 0 < m ∧ m ≤ 10000)
  ∧ (∀ v : JValue,
       isValidSmilesArgs
           { emptyArgs with smiles := some (JValue.str s), threshold := some v } = true
         ↔ ∃ q : Rat, v = JValue.num q ∧ 0 ≤ q ∧ q ≤ 100)
  ∧ (∀ v : JValue,
       isValidSmilesArgs
           { emptyArgs with smiles := some (JValue.str s), max_records := some v } = true
         ↔ ∃ q : Rat, v = JValue.num q ∧ 0 < q ∧ q ≤ 10000)
  ∧ (∀ (oracle : Oracle) (args : RawArgs), isValidSmilesArgs args = false →
        handleSearchBySmiles oracle args
          = (Outcome.err (JsError.mcp ErrorCode.invalidParams "Invalid SMILES arguments"), [])
      ∧ handleSearchSimilarCompounds oracle args
          = (Outcome.err (JsError.mcp ErrorCode.invalidParams "Invalid similarity search arguments"), [])) := by
  refine ⟨?_, ?_, ?_, ?_, ?_⟩
  · simp [isValidSmilesArgs, emptyArgs, hs]
  · simp [isValidSmilesArgs, emptyArgs, hs]
  · intro v
    cases v <;> simp [isValidSmilesArgs, emptyArgs, hs]
  · intro v
    cases v <;> simp [isValidSmilesArgs, emptyArgs, hs]
  · intro oracle args h
    exact ⟨by simp [handleSearchBySmiles, h], by simp [handleSearchSimilarCompounds, h]⟩

/-- Witness for C5: threshold 100 is accepted and 101 rejected,
max_records 10000 accepted and 10001 rejected, a non-numeric threshold
(the string "50") and a non-numeric max_records (the boolean true) are
rejected — derived through the arbitrary-value biconditionals — and an
empty SMILES is rejected by the handler itself with no upstream
request. -/
theorem smiles_threshold_and_max_records_bounds_witness :
    isValidSmilesArgs { emptyArgs with smiles := some (JValue.str "CCO"), threshold := some (JValue.num 100) } = true
  ∧ isValidSmilesArgs { emptyArgs with smiles := some (JValue.str "CCO"), threshold := some (JValue.num 101) } = false
  ∧ isValidSmilesArgs { emptyArgs with smiles := some (JValue.str "CCO"), max_records := some (JValue.num 10000) } = true
  ∧ isValidSmilesArgs { emptyArgs with smiles := some (JValue.str "CCO"), max_records := some (JValue.num 10001) } = false
  ∧ isValidSmilesArgs { emptyArgs with smiles := some (JValue.str "CCO"), threshold := some (JValue.str "50") } = false
  ∧ isValidSmilesArgs { emptyArgs with smiles := some (JValue.str "CCO"), max_records := some (JValue.bool true) } = false
  ∧ handleSearchBySmiles oracleDown { emptyArgs with smiles := some (JValue.str "") }
      = (Outcome.err (JsError.mcp ErrorCode.invalidParams "Invalid SMILES arguments"), []) :=
  ⟨(smiles_threshold_and_max_records_bounds "CCO" (by decide) 100 1).1.mpr
      ⟨by decide, by decide⟩,
   by decide,
   (smiles_threshold_and_max_records_bounds "CCO" (by decide) 0 10000).2.1.mpr
      ⟨by decide, by decide⟩,
   by decide,
   Bool.not_eq_true _ |>.mp (fun hacc =>
     have hex := ((smiles_threshold_and_max_records_bounds "CCO" (by decide) 0 1).2.2.1
        (JValue.str "50")).mp hacc
     by rcases hex with ⟨q, hq, -⟩; cases hq),
   Bool.not_eq_true _ |>.mp (fun hacc =>
     have hex := ((smiles_threshold_and_max_records_bounds "CCO" (by decide) 0 1).2.2.2.1
        (JValue.bool true)).mp hacc
     by rcases hex with ⟨q, hq, -⟩; cases hq),
   ((smiles_threshold_and_max_records_bounds "CCO" (by decide) 0 1).2.2.2.2 oracleDown
      { emptyArgs with smiles := some (JValue.str "") } (by decide)).1⟩

/-- Claim C10: an explicitly supplied threshold of 0 — though accepted by
validation — is falsy in JS, so the literal defaulting replaces it with
90 before the upstream request is built: the call behaves identically to
one with no threshold at all, and the issued similarity request carries
Threshold 90; the same falsy-default construct governs max_records, where
a (hypothetical) 0 would likewise become the literal default 100. -/
theorem threshold_zero_replaced_by_default (oracle : Oracle) (s : String) (hs : 0 < s.length) :
    handleSearchSimilarCompounds oracle
        { emptyArgs with smiles := some (JValue.str s), threshold := some (JValue.num 0) }
      = handleSearchSimilarCompounds oracle { emptyArgs with smiles := some (JValue.str s) }
  ∧ (handleSearchSimilarCompounds oracle
        { emptyArgs with smiles := some (JValue.str s), threshold := some (JValue.num 0) }).2
      = [UpReq.post "/compound/similarity/smiles/JSON"
          [("smiles", JValue.str s), ("Threshold", JValue.num 90), ("MaxRecords", JValue.num 100)]]
  ∧ jsOr (some (JValue.num 0)) (JValue.num 90) = JValue.num 90
  ∧ jsOr (some (JValue.num 0)) (JValue.num 100) = JValue.num 100 := by
  have hv0 : isValidSmilesArgs
      { emptyArgs with smiles := some (JValue.str s), threshold := some (JValue.num 0) } = true := by
    simp [isValidSmilesArgs, emptyArgs, hs]
  have hv1 : isValidSmilesArgs { emptyArgs with smiles := some (JValue.str s) } = true := by
    simp [isValidSmilesArgs, emptyArgs, hs]
  refine ⟨?_, ?_, rfl, rfl⟩
  · unfold handleSearchSimilarCompounds
    rw [hv0, hv1]
    simp [jsOr, truthy, truthyV, optJ, emptyArgs]
  · unfold handleSearchSimilarCompounds
    rw [hv0]
    simp only [if_pos rfl, jsOr, truthy, truthyV, optJ, emptyArgs, Option.getD]
    simp
    rcases oracle (UpReq.post "/compound/similarity/smiles/JSON"
      [("smiles", JValue.str s), ("Threshold", JValue.num 90),
       ("MaxRecords", JValue.num 100)]) with e | d <;> simp

/-- Witness for C10: with an ethanol SMILES, threshold 0 and no threshold
issue the same call and the request carries the default 90. -/
theorem threshold_zero_replaced_by_default_witness :
    handleSearchSimilarCompounds oracleDown
        { emptyArgs with smiles := some (JValue.str "CCO"), threshold := some (JValue.num 0) }
      = handleSearchSimilarCompounds oracleDown { emptyArgs with smiles := some (JValue.str "CCO") }
  ∧ (handleSearchSimilarCompounds oracleDown
        { emptyArgs with smiles := some (JValue.str "CCO"), threshold := some (JValue.num 0) }).2
      = [UpReq.post "/compound/similarity/smiles/JSON"
          [("smiles", JValue.str "CCO"), ("Threshold", JValue.num 90), ("MaxRecords", JValue.num 100)]] :=
  ⟨(threshold_zero_replaced_by_default oracleDown "CCO" (by decide)).1,
   (threshold_zero_replaced_by_default oracleDown "CCO" (by decide)).2.1⟩

/-- Claim C6: for each resolve-then-fetch path — search_compounds,
search_by_smiles, and the SMILES branch of get_patent_ids — an initial
lookup yielding zero identifiers produces a normal returned result with
isError false whose payload is the explicit not-found message object, not
a thrown error, and no second upstream call is made. -/
theorem zero_id_not_found (oracle : Oracle) (q s p : String)
    (hq : 0 < q.length) (hs : 0 < s.length) (hp : p ≠ "")
    (r1 r2 r3 : JValue)
    (h1 : oracle (searchCidsReq (JValue.str "name") q (JValue.num 100)) = Except.ok r1)
    (e1 : cidLenPos r1 = false)
    (h2 : oracle (smilesCidsReq s) = Except.ok r2)
    (e2 : cidLenPos r2 = false)
    (h3 : oracle (smilesCidsReq p) = Except.ok r3)
    (e3 : patentNoCids (cidField r3) = true) :
    handleSearchCompounds oracle { emptyArgs with query := some (JValue.str q) }
      = (Outcome.ok ⟨[ContentText.json (JValue.obj
          [("message", JValue.str "No compounds found"), ("query", JValue.str q)])], false⟩,
         [searchCidsReq (JValue.str "name") q (JValue.num 100)])
  ∧ handleSearchBySmiles oracle { emptyArgs with smiles := some (JValue.str s) }
      = (Outcome.ok ⟨[ContentText.json (JValue.obj
          [("message", JValue.str "No exact match found"), ("query_smiles", JValue.str s)])], false⟩,
         [smilesCidsReq s])
  ∧ handleGetPatentIds oracle { emptyArgs with smiles := some (JValue.str p) }
      = (Outcome.ok ⟨[ContentText.json (JValue.obj
          [("message", JValue.str "No compound found for the given SMILES"),
           ("smiles", JValue.str p)])], false⟩,
         [smilesCidsReq p]) := by
  refine ⟨?_, ?_, ?_⟩
  · have hv : isValidCompoundSearchArgs { emptyArgs with query := some (JValue.str q) } = true := by
      simp [isValidCompoundSearchArgs, emptyArgs, hq]
    unfold handleSearchCompounds
    rw [hv]
    simp only [eq_self_iff_true, if_true, jsOr, truthy, truthyV, optJ, emptyArgs, Option.getD,
      jsStringOpt, jsStringOf, Bool.false_eq_true, if_false]
    rw [h1]
    simp [e1]
  · have hv : isValidSmilesArgs { emptyArgs with smiles := some (JValue.str s) } = true := by
      simp [isValidSmilesArgs, emptyArgs, hs]
    unfold handleSearchBySmiles
    rw [hv]
    simp only [eq_self_iff_true, if_true, jsOr, truthy, truthyV, optJ, emptyArgs, Option.getD,
      jsStringOpt, jsStringOf, Bool.false_eq_true, if_false]
    rw [h2]
    simp [e2]
  · unfold handleGetPatentIds
    simp [truthy, truthyV, hp, jsStringOpt, jsStringOf, optJ, jsOr, emptyArgs]
    rw [h3]
    simp [e3]

/-- Witness for C6: against a client answering every lookup with an empty
object (zero identifiers), all three paths return their not-found payload
with no error flag and a single upstream request. -/
theorem zero_id_not_found_witness :
    handleSearchCompounds oracleEmpty { emptyArgs with query := some (JValue.str "aspirin") }
      = (Outcome.ok ⟨[ContentText.json (JValue.obj
          [("message", JValue.str "No compounds found"), ("query", JValue.str "aspirin")])], false⟩,
         [searchCidsReq (JValue.str "name") "aspirin" (JValue.num 100)])
  ∧ handleSearchBySmiles oracleEmpty { emptyArgs with smiles := some (JValue.str "CCO") }
      = (Outcome.ok ⟨[ContentText.json (JValue.obj
          [("message", JValue.str "No exact match found"), ("query_smiles", JValue.str "CCO")])], false⟩,
         [smilesCidsReq "CCO"])
  ∧ handleGetPatentIds oracleEmpty { emptyArgs with smiles := some (JValue.str "XYZ") }
      = (Outcome.ok ⟨[ContentText.json (JValue.obj
          [("message", JValue.str "No compound found for the given SMILES"),
           ("smiles", JValue.str "XYZ")])], false⟩,
         [smilesCidsReq "XYZ"]) :=
  zero_id_not_found oracleEmpty "aspirin" "CCO" "XYZ" (by decide) (by decide) (by decide)
    (JValue.obj []) (JValue.obj []) (JValue.obj []) rfl rfl rfl rfl rfl rfl

/-- Claim C7: the resource-read operation tries the six URI templates in
a fixed order, and a URI matching none of them raises the protocol-level
InvalidRequest error naming the invalid URI, with no upstream request
issued and no generic network error. -/
theorem invalid_uri_rejected_without_network (oracle : Oracle) (uri : String)
    (h1 : matchIdTemplate "pubchem://compound/" uri = none)
    (h2 : matchIdTemplate "pubchem://structure/" uri = none)
    (h3 : matchIdTemplate "pubchem://properties/" uri = none)
    (h4 : matchIdTemplate "pubchem://bioassay/" uri = none)
    (h5 : matchSimilarity uri = none)
    (h6 : matchIdTemplate "pubchem://safety/" uri = none) :
    readResource oracle uri
      = (ResourceOutcome.err ErrorCode.invalidRequest ("Invalid URI format: " ++ uri), []) := by
  unfold readResource
  rw [h1, h2, h3, h4, h5, h6]

/-- Witness for C7: the unmatched URI of the spec example. -/
theorem invalid_uri_rejected_without_network_witness :
    readResource oracleDown "pubchem://unknown/1"
      = (ResourceOutcome.err ErrorCode.invalidRequest
          ("Invalid URI format: " ++ "pubchem://unknown/1"), []) :=
  invalid_uri_rejected_without_network oracleDown "pubchem://unknown/1" rfl rfl rfl rfl rfl rfl

/-- Claim C8: get_patent_ids accepts a truthy cid directly — issuing only
the xrefs fetch — and, given only a smiles, first resolves it upstream to
the head of the returned CID list before fetching; either way the result
reports the full patent list in patent_count and patent_ids while the
derived patent_urls view substitutes only the first 20 identifiers into
the external URL template. -/
theorem patent_ids_resolution (oracle : Oracle) :
    (∀ (args : RawArgs) (r : JValue),
        truthy args.cid = true →
        oracle (patentXrefsReq (optJ args.cid)) = Except.ok r →
        handleGetPatentIds oracle args
          = (Outcome.ok ⟨[ContentText.json (JValue.obj
              [("cid", optJ args.cid),
               ("smiles", jsOr args.smiles JValue.null),
               ("patent_count", JValue.num (ratOfNat (extractPatentIds r).length)),
               ("patent_ids", JValue.arr (extractPatentIds r)),
               ("patent_urls", JValue.arr (((extractPatentIds r).take 20).map (fun i =>
                  JValue.str ("https://patents.google.com/patent/" ++ jsStringOf i))))])], false⟩,
             [patentXrefsReq (optJ args.cid)]))
  ∧ (∀ (args : RawArgs) (s : String) (c r1 r2 : JValue) (rest : List JValue),
        args.cid = none →
        args.smiles = some (JValue.str s) →
        s ≠ "" →
        oracle (smilesCidsReq s) = Except.ok r1 →
        cidField r1 = some (JValue.arr (c :: rest)) →
        oracle (patentXrefsReq c) = Except.ok r2 →
        handleGetPatentIds oracle args
          = (Outcome.ok ⟨[ContentText.json (JValue.obj
              [("cid", c),
               ("smiles", JValue.str s),
               ("patent_count", JValue.num (ratOfNat (extractPatentIds r2).length)),
               ("patent_ids", JValue.arr (extractPatentIds r2)),
               ("patent_urls", JValue.arr (((extractPatentIds r2).take 20).map (fun i =>
                  JValue.str ("https://patents.google.com/patent/" ++ jsStringOf i))))])], false⟩,
             [smilesCidsReq s, patentXrefsReq c])) := by
  constructor
  · intro args r hcid hr
    unfold handleGetPatentIds patentFetch
    rw [hcid]
    simp only [eq_self_iff_true, if_true]
    rw [hr]
    simp
  · intro args s c r1 r2 rest hc0 hsm hs h1 hc h2
    unfold handleGetPatentIds patentFetch
    rw [hc0, hsm]
    simp [truthy, truthyV, hs, jsStringOpt, jsStringOf]
    rw [h1]
    simp [hc, patentNoCids, truthy, truthyV, lenIsZero, jsIndex0]
    rw [h2]
    simp [jsOr, truthy, truthyV, optJ, hs]

/-- Witness for C8: a direct cid 887 issues only the xrefs fetch, and a
smiles-only call first resolves CO to CID 887 and then fetches; with
three patent identifiers upstream, patent_count is 3, patent_ids lists
all three, and patent_urls carries their three substituted URLs. -/
theorem patent_ids_resolution_witness :
    handleGetPatentIds oraclePatent { emptyArgs with cid := some (JValue.num (ratOfNat 887)) }
      = (Outcome.ok ⟨[ContentText.json (JValue.obj
          [("cid", optJ (some (JValue.num (ratOfNat 887)))),
           ("smiles", jsOr none JValue.null),
           ("patent_count", JValue.num (ratOfNat (extractPatentIds patResp3).length)),
           ("patent_ids", JValue.arr (extractPatentIds patResp3)),
           ("patent_urls", JValue.arr (((extractPatentIds patResp3).take 20).map (fun i =>
              JValue.str ("https://patents.google.com/patent/" ++ jsStringOf i))))])], false⟩,
         [patentXrefsReq (optJ (some (JValue.num (ratOfNat 887))))])
  ∧ handleGetPatentIds oraclePatent { emptyArgs with smiles := some (JValue.str "CO") }
      = (Outcome.ok ⟨[ContentText.json (JValue.obj
          [("cid", JValue.num (ratOfNat 887)),
           ("smiles", JValue.str "CO"),
           ("patent_count", JValue.num (ratOfNat (extractPatentIds patResp3).length)),
           ("patent_ids", JValue.arr (extractPatentIds patResp3)),
           ("patent_urls", JValue.arr (((extractPatentIds patResp3).take 20).map (fun i =>
              JValue.str ("https://patents.google.com/patent/" ++ jsStringOf i))))])], false⟩,
         [smilesCidsReq "CO", patentXrefsReq (JValue.num (ratOfNat 887))])
  ∧ extractPatentIds patResp3 = [JValue.str "US-1", JValue.str "US-2", JValue.str "US-3"] :=
  ⟨(patent_ids_resolution oraclePatent).1
      { emptyArgs with cid := some (JValue.num (ratOfNat 887)) } patResp3 (by decide) rfl,
   (patent_ids_resolution oraclePatent).2
      { emptyArgs with smiles := some (JValue.str "CO") } "CO"
      (JValue.num (ratOfNat 887)) cidResp887 patResp3 [] rfl rfl (by decide) rfl rfl rfl,
   rfl⟩

end PubChemMCP
